import Mathlib

/-!
Verification of the chat front-end in `src/main.py` against its
natural-language specification.

The file embeds the state-handling logic of the program:
* the per-session state (`chat_history`, `total_messages`, `start_time`)
  initialised by `initialize_session_state`,
* the bounded conversation-memory window (`ConversationBufferWindowMemory`)
  that `main` rebuilds from the session transcript on every rerun,
* the persona prompt templates of `get_custom_prompt` and the placeholder
  substitution that fills them,
* the send-button handler (`if send_button and user_question:` block) with
  its try/except around the inference call.

Machine-level concerns (the Streamlit widgets, CSS, the remote Groq
endpoint) stay outside the model; the inference call is represented by its
result, success or failure.
-/

set_option maxRecDepth 40000

namespace ChatBot

/-- A conversation turn: the human/AI message pair appended to
`st.session_state.chat_history` in `main` (src/main.py line 167). -/
structure Turn where
  human : String
  AI : String
deriving DecidableEq

/-- Modelled from the spec: `ConversationBufferWindowMemory` is imported
from the LangChain library and its implementation is not under `src/`;
spec section 3 describes it as a fixed-capacity ordered log whose window
view holds at most the K most-recent (human, assistant) turn pairs. The
store itself keeps every saved pair; the truncation to the last `k` pairs
happens in the window view (`windowTurns`). -/
structure BufferWindowMemory where
  k : Nat
  messages : List Turn

/-- Modelled from the spec: `memory.save_context` with an input/output pair
(src/main.py line 135) appends one (human, assistant) pair to the memory
store. -/
def saveContext (m : BufferWindowMemory) (input output : String) : BufferWindowMemory :=
  { m with messages := m.messages ++ [⟨input, output⟩] }

/-- Modelled from the spec: `memory.clear()` (src/main.py line 157) empties
the memory store. -/
def BufferWindowMemory.clear (m : BufferWindowMemory) : BufferWindowMemory :=
  { m with messages := [] }

/-- Modelled from the spec: the window view of the memory — the suffix of
the stored pairs holding at most the `k` most-recent turns (spec section 3:
"derived, non-owning view holding at most K most-recent Turns"). -/
def windowTurns (m : BufferWindowMemory) : List Turn :=
  m.messages.drop (m.messages.length - m.k)

/-- Modelled from the spec: `render()` concatenates the windowed turns into
the `{history}` placeholder format `Human: <text>\nAI: <text>` per turn,
newline-joined, oldest first (spec section 4.1). -/
def renderTurn (t : Turn) : String :=
  "Human: " ++ t.human ++ "\nAI: " ++ t.AI

/-- Render of the whole window, oldest first. -/
def BufferWindowMemory.render (m : BufferWindowMemory) : String :=
  String.intercalate "\n" ((windowTurns m).map renderTurn)

/-- The fresh memory built in `main`: `ConversationBufferWindowMemory(k=memory_length)`
(src/main.py line 129) followed by the replay loop
`for message in st.session_state.chat_history: memory.save_context(...)`
(src/main.py lines 134-135). -/
def buildMemory (k : Nat) (chat_history : List Turn) : BufferWindowMemory :=
  chat_history.foldl (fun m t => saveContext m t.human t.AI) { k := k, messages := [] }

theorem buildMemory_messages_aux (h : List Turn) (m : BufferWindowMemory) :
    (h.foldl (fun m t => saveContext m t.human t.AI) m).messages = m.messages ++ h := by
  induction h generalizing m with
  | nil => simp
  | cons t rest ih =>
    rw [List.foldl_cons, ih]
    simp [saveContext]

theorem buildMemory_messages (k : Nat) (h : List Turn) :
    (buildMemory k h).messages = h := by
  simpa [buildMemory] using buildMemory_messages_aux h { k := k, messages := [] }

theorem buildMemory_k (k : Nat) (h : List Turn) :
    (buildMemory k h).k = k := by
  have aux : ∀ (l : List Turn) (m : BufferWindowMemory),
      (l.foldl (fun m t => saveContext m t.human t.AI) m).k = m.k := by
    intro l
    induction l with
    | nil => intro m; rfl
    | cons t rest ih => intro m; simpa [List.foldl_cons, saveContext] using ih _
  simpa [buildMemory] using aux h { k := k, messages := [] }

theorem windowTurns_buildMemory (k : Nat) (h : List Turn) :
    windowTurns (buildMemory k h) = h.drop (h.length - k) := by
  simp [windowTurns, buildMemory_messages, buildMemory_k]

/-- The `Default` persona template, verbatim from src/main.py lines 58-62
(triple-quoted Python string, continuation lines indented 21 spaces). -/
def defaultTemplate : String :=
  "You are a helpful AI assistant.\n                     Current conversation:\n                     {history}\n                     Human: {input}\n                     AI:"

/-- The `Expert` persona template, verbatim from src/main.py lines 63-68
(continuation lines indented 20 spaces). -/
def expertTemplate : String :=
  "You are an expert consultant with deep knowledge across multiple fields.\n                    Please provide detailed, technical responses when appropriate.\n                    Current conversation:\n                    {history}\n                    Human: {input}\n                    Expert:"

/-- The `Creative` persona template, verbatim from src/main.py lines 69-74
(continuation lines indented 22 spaces). -/
def creativeTemplate : String :=
  "You are a creative and imaginative AI that thinks outside the box.\n                      Feel free to use metaphors and analogies in your responses.\n                      Current conversation:\n                      {history}\n                      Human: {input}\n                      Creative AI:"

/-- The `personas` dictionary of `get_custom_prompt` (src/main.py lines 57-75). -/
def personas : List (String × String) :=
  [("Default", defaultTemplate), ("Expert", expertTemplate), ("Creative", creativeTemplate)]

/-- The value returned by `get_custom_prompt`: a `PromptTemplate` with
`input_variables=["history", "input"]` and the selected template string. -/
structure PromptTemplate where
  input_variables : List String
  template : String
deriving DecidableEq

/-- `get_custom_prompt` (src/main.py lines 53-80).  The argument models the
session-state lookup of `selected_persona` with default `"Default"`:
`none` means the key is absent and the default is used.  The dictionary
lookup of the persona raises `KeyError` when the persona is not a key; the
raised exception is embedded as `Except.error`. -/
def get_custom_prompt (selected_persona : Option String) :
    Except String PromptTemplate :=
  let persona := selected_persona.getD "Default"
  match personas.lookup persona with
  | some tpl => Except.ok { input_variables := ["history", "input"], template := tpl }
  | none => Except.error ("KeyError: " ++ persona)

/-- Modelled from the spec: the template formatting performed by the
LangChain `PromptTemplate` (f-string style) is library code not under
`src/`; spec section 4.2 says to "substitute `{history}` and `{input}`
literally" with user text "inserted verbatim".  One left-to-right pass over
the template: each `{history}` / `{input}` placeholder is replaced by the
corresponding value, every other character is copied; the substituted
values are never re-scanned. -/
def substAux (h i : List Char) : List Char → List Char
  | '\x7b' :: 'h' :: 'i' :: 's' :: 't' :: 'o' :: 'r' :: 'y' :: '\x7d' :: rest =>
      h ++ substAux h i rest
  | '\x7b' :: 'i' :: 'n' :: 'p' :: 'u' :: 't' :: '\x7d' :: rest =>
      i ++ substAux h i rest
  | c :: rest => c :: substAux h i rest
  | [] => []

/-- Fill a template with a history text and an input text (see `substAux`). -/
def formatTemplate (tpl history input : String) : String :=
  ⟨substAux history.data input.data tpl.data⟩

/-- `pat` is a prefix of some tail of `l`. -/
def listContains (pat : List Char) : List Char → Bool
  | [] => pat.isPrefixOf []
  | c :: rest => pat.isPrefixOf (c :: rest) || listContains pat rest

/-- `pat` occurs as a contiguous substring of `s`. -/
def containsStr (s pat : String) : Bool :=
  listContains pat.data s.data

/-- `s` ends with the suffix `sfx`. -/
def strEndsWith (s sfx : String) : Bool :=
  sfx.data.isSuffixOf s.data

/-- The per-session mutable state set up by `initialize_session_state`
(src/main.py lines 44-51): the transcript `chat_history`, the counter
`total_messages` and the `start_time` timestamp (modelled as an abstract
`Nat` clock value, `none` for Python `None`). -/
structure SessionState where
  chat_history : List Turn
  total_messages : Nat
  start_time : Option Nat
deriving DecidableEq

/-- The state produced by `initialize_session_state` on a fresh session
(src/main.py lines 44-51). -/
def initialState : SessionState :=
  { chat_history := [], total_messages := 0, start_time := none }

/-- The outcome of the external inference call `conversation(user_question)`:
either the response text or the exception message. -/
inductive InferenceResult where
  | ok (response : String)
  | error (msg : String)
deriving DecidableEq

/-- What a run of the send-handler block produces: the session state
afterwards, the `st.error` message if one was displayed, whether the
inference endpoint was invoked, and whether `st.rerun()` was reached. -/
structure SendOutcome where
  state : SessionState
  displayed_error : Option String
  inference_called : Bool
  reran : Bool
deriving DecidableEq

/-- The send-handler block of `main` (src/main.py lines 160-171).  It is
guarded by `if send_button and user_question:`; a Python string is truthy
iff non-empty, so the block runs only when the button was pressed and the
input is non-empty.  Inside the guard, `start_time` is set to the current
clock value `now` when it was unset, then the inference call runs inside a
try/except: on success the new turn is appended to `chat_history` and
`st.rerun()` is reached; on an exception `st.error` displays the message
prefixed with `⚠️ Error: ` and nothing else happens. -/
def handleSend (s : SessionState) (send_button : Bool) (user_question : String)
    (now : Nat) (infer : InferenceResult) : SendOutcome :=
  if send_button ∧ user_question ≠ "" then
    let s1 := if s.start_time = none then { s with start_time := some now } else s
    match infer with
    | .ok resp =>
        { state := { s1 with chat_history := s1.chat_history ++ [⟨user_question, resp⟩] },
          displayed_error := none, inference_called := true, reran := true }
    | .error e =>
        { state := s1, displayed_error := some ("⚠️ Error: " ++ e),
          inference_called := true, reran := false }
  else
    { state := s, displayed_error := none, inference_called := false, reran := false }

/-- One rerun of `main` as far as the claims need it: `get_custom_prompt()`
is evaluated while constructing the `ConversationChain` (src/main.py
line 131), before the send-handler block; an exception there aborts the
script run, so the send handler — and with it the inference call — is
never reached.  `Except.error` is that abort. -/
def runRerun (selected_persona : Option String) (s : SessionState)
    (send_button : Bool) (user_question : String) (now : Nat)
    (infer : InferenceResult) : Except String SendOutcome :=
  match get_custom_prompt selected_persona with
  | .error e => .error e
  | .ok _ => .ok (handleSend s send_button user_question now infer)

/-- The `New Topic` button handler (src/main.py lines 156-158): its body is
`memory.clear()` plus a `st.success` toast; the session state is not
touched. -/
def newTopic (s : SessionState) (m : BufferWindowMemory) :
    SessionState × BufferWindowMemory :=
  (s, m.clear)

/-! Concrete turns used as test data for the window examples. -/

def turnA : Turn := ⟨"A", "reply A"⟩

def turnB : Turn := ⟨"B", "reply B"⟩

def turnC : Turn := ⟨"C", "reply C"⟩

def turnD : Turn := ⟨"D", "reply D"⟩

def turnE : Turn := ⟨"E", "reply E"⟩

/-! ## Claim theorems -/

/-- C1: for every window capacity K in [1,30] and every sequence of turn
pairs replayed into a freshly built memory window, the window holds exactly
min(N, K) turns, and those turns are the last min(N, K) turns of the
sequence in their original order; in particular, pushing A,B,C,D,E with
K=3 leaves the window rendering exactly [C,D,E] in that order. -/
theorem window_holds_last_min_N_K (K : Nat) (h : List Turn)
    (hK1 : 1 ≤ K) (hK30 : K ≤ 30) :
    (windowTurns (buildMemory K h)).length = min h.length K ∧
    windowTurns (buildMemory K h) = h.drop (h.length - min h.length K) ∧
    windowTurns (buildMemory 3 [turnA, turnB, turnC, turnD, turnE]) =
      [turnC, turnD, turnE] ∧
    (buildMemory 3 [turnA, turnB, turnC, turnD, turnE]).render =
      renderTurn turnC ++ "\n" ++ renderTurn turnD ++ "\n" ++ renderTurn turnE := by
  refine ⟨?_, ?_, rfl, rfl⟩
  · rw [windowTurns_buildMemory, List.length_drop]
    omega
  · rw [windowTurns_buildMemory]
    congr 1
    omega

/-- Witness for `window_holds_last_min_N_K` at K=3 and the five example
turns. -/
theorem window_holds_last_min_N_K_witness :
    (windowTurns (buildMemory 3 [turnA, turnB, turnC, turnD, turnE])).length = 3 ∧
    windowTurns (buildMemory 3 [turnA, turnB, turnC, turnD, turnE]) =
      [turnC, turnD, turnE] := by
  have h := window_holds_last_min_N_K 3 [turnA, turnB, turnC, turnD, turnE]
    (by decide) (by decide)
  exact ⟨h.1, h.2.2.1⟩

/-- C4: the New Topic handler clears the memory window — a subsequent
render of the window yields the empty string — while the session state,
in particular the displayed transcript `chat_history`, is unchanged. -/
theorem clear_empties_window_keeps_transcript (s : SessionState) (k : Nat)
    (t : List Turn) :
    (newTopic s (buildMemory k t)).2.render = "" ∧
    (newTopic s (buildMemory k t)).1 = s := by
  refine ⟨?_, rfl⟩
  have hi : "\n".intercalate ([] : List String) = "" := rfl
  simp [newTopic, BufferWindowMemory.clear, BufferWindowMemory.render,
    windowTurns, List.drop_nil, hi]

/-- C9: pressing Send while the input text is empty is a no-op: the guard
of the handler fails, so no inference request is issued and the session
state (transcript, start timestamp, counters) is unchanged. -/
theorem empty_input_send_is_noop (s : SessionState) (now : Nat)
    (r : InferenceResult) :
    handleSend s true "" now r =
      { state := s, displayed_error := none, inference_called := false,
        reran := false } := by
  simp [handleSend]

/-- C2: when the inference call raises, the except-branch runs: the
transcript `chat_history` is unchanged (no partial turn appended), the
failure is shown via `st.error` as a visible message, and the session
continues (the handler returns instead of crashing; `st.rerun` is not
reached). -/
theorem failed_inference_keeps_transcript (s : SessionState) (q : String)
    (now : Nat) (e : String) (hq : q ≠ "") :
    (handleSend s true q now (InferenceResult.error e)).state.chat_history =
      s.chat_history ∧
    (handleSend s true q now (InferenceResult.error e)).displayed_error =
      some ("⚠️ Error: " ++ e) ∧
    (handleSend s true q now (InferenceResult.error e)).reran = false := by
  simp only [handleSend, hq, ne_eq, not_false_iff, true_and, if_true]
  split <;> simp

/-- Witness for `failed_inference_keeps_transcript` on a fresh session. -/
theorem failed_inference_keeps_transcript_witness :
    (handleSend initialState true "hello" 0
        (InferenceResult.error "boom")).state.chat_history = [] ∧
    (handleSend initialState true "hello" 0
        (InferenceResult.error "boom")).displayed_error =
      some "⚠️ Error: boom" := by
  have h := failed_inference_keeps_transcript initialState "hello" 0 "boom"
    (by decide)
  exact ⟨h.1, h.2.1⟩

/-- C3: for a persona outside the enumerated set, the dictionary lookup in
`get_custom_prompt` raises `KeyError` while the `ConversationChain` is
being constructed, so the rerun aborts before the send handler and the
inference endpoint is never called. -/
theorem unknown_persona_aborts_before_inference (p : String)
    (s : SessionState) (b : Bool) (q : String) (now : Nat)
    (r : InferenceResult) (h1 : p ≠ "Default") (h2 : p ≠ "Expert")
    (h3 : p ≠ "Creative") :
    runRerun (some p) s b q now r = Except.error ("KeyError: " ++ p) := by
  have e1 : (p == "Default") = false := by simp [h1]
  have e2 : (p == "Expert") = false := by simp [h2]
  have e3 : (p == "Creative") = false := by simp [h3]
  simp [runRerun, get_custom_prompt, personas, List.lookup, e1, e2, e3]

/-- Witness for `unknown_persona_aborts_before_inference` at the persona
Wizard. -/
theorem unknown_persona_aborts_before_inference_witness :
    runRerun (some "Wizard") initialState true "hi" 0
        (InferenceResult.ok "resp") = Except.error "KeyError: Wizard" := by
  have h := unknown_persona_aborts_before_inference "Wizard" initialState true
    "hi" 0 (InferenceResult.ok "resp") (by decide) (by decide) (by decide)
  exact h

/-- C10: on the first Send of a session (start_time unset) with a
non-empty input, start_time is assigned before the inference call is
attempted, so it is set to the current clock value whether the call fails
or succeeds. -/
theorem start_time_set_before_inference (s : SessionState) (q : String)
    (now : Nat) (e resp : String) (hq : q ≠ "")
    (hstart : s.start_time = none) :
    (handleSend s true q now (InferenceResult.error e)).state.start_time =
      some now ∧
    (handleSend s true q now (InferenceResult.ok resp)).state.start_time =
      some now := by
  simp [handleSend, hq, hstart]

/-- Witness for `start_time_set_before_inference` on a fresh session. -/
theorem start_time_set_before_inference_witness :
    (handleSend initialState true "hello" 7
        (InferenceResult.error "boom")).state.start_time = some 7 ∧
    (handleSend initialState true "hello" 7
        (InferenceResult.ok "fine")).state.start_time = some 7 :=
  start_time_set_before_inference initialState "hello" 7 "boom" "fine"
    (by decide) rfl

/-- C5 counterexample: with a five-turn transcript, the window under K=3 is
[C,D,E]; rebuilding with K grown to 5 — no new turns having arrived —
yields a different window (the transcript-retained turns A,B reappear),
refuting the claim that growing K has no effect on the window contents
until more turns arrive. -/
theorem grow_k_changes_window_counterexample :
    windowTurns (buildMemory 3 [turnA, turnB, turnC, turnD, turnE]) =
      [turnC, turnD, turnE] ∧
    windowTurns (buildMemory 5 [turnA, turnB, turnC, turnD, turnE]) ≠
      [turnC, turnD, turnE] := by
  refine ⟨rfl, ?_⟩
  decide

/-- C5 amended: when K is changed while a transcript exists, the window is
re-derived from the current transcript rather than from the previous
window: the new window is always the last min(N, K2) transcript turns;
shrinking K immediately drops the oldest overflow turns (the new window is
a suffix of the old one); growing K leaves the window unchanged exactly
when the old window already contained the whole transcript — otherwise it
re-extends the window with older turns the transcript retains. -/
theorem k_change_rederives_from_transcript (K K2 : Nat) (t : List Turn) :
    windowTurns (buildMemory K2 t) = t.drop (t.length - K2) ∧
    (K2 ≤ K → windowTurns (buildMemory K2 t) =
      (windowTurns (buildMemory K t)).drop
        ((windowTurns (buildMemory K t)).length - K2)) ∧
    (K ≤ K2 → t.length ≤ K → windowTurns (buildMemory K2 t) =
      windowTurns (buildMemory K t)) := by
  refine ⟨windowTurns_buildMemory K2 t, ?_, ?_⟩
  · intro hle
    rw [windowTurns_buildMemory, windowTurns_buildMemory, List.length_drop,
      List.drop_drop]
    congr 1
    omega
  · intro hKK2 hNK
    rw [windowTurns_buildMemory, windowTurns_buildMemory]
    congr 1
    omega

/-- Witness for `k_change_rederives_from_transcript`: shrinking K from 3 to
2 on the five-turn transcript drops the oldest turn of the old window, and
growing K from 2 to 9 on a two-turn transcript leaves the window as is. -/
theorem k_change_rederives_from_transcript_witness :
    windowTurns (buildMemory 2 [turnA, turnB, turnC, turnD, turnE]) =
      (windowTurns (buildMemory 3 [turnA, turnB, turnC, turnD, turnE])).drop 1 ∧
    windowTurns (buildMemory 9 [turnA, turnB]) =
      windowTurns (buildMemory 2 [turnA, turnB]) := by
  constructor
  · have h := (k_change_rederives_from_transcript 3 2
      [turnA, turnB, turnC, turnD, turnE]).2.1 (by decide)
    simpa using h
  · have h := (k_change_rederives_from_transcript 2 9 [turnA, turnB]).2.2
      (by decide) (by decide)
    simpa using h

/-- C6: for each persona of the enumerated set and all history and input
texts — including texts that themselves contain template-like brace
syntax — prompt assembly selects the persona template and fills it by
substituting the two placeholders literally: the result is the template
text with the history and input inserted verbatim, no escaping applied. -/
theorem substitution_inserts_text_verbatim (h i : String) :
    get_custom_prompt (some "Default") =
      Except.ok ⟨["history", "input"], defaultTemplate⟩ ∧
    formatTemplate defaultTemplate h i =
      "You are a helpful AI assistant.\n                     Current conversation:\n                     " ++
        (h ++ ("\n                     Human: " ++ (i ++ "\n                     AI:"))) ∧
    get_custom_prompt (some "Expert") =
      Except.ok ⟨["history", "input"], expertTemplate⟩ ∧
    formatTemplate expertTemplate h i =
      "You are an expert consultant with deep knowledge across multiple fields.\n                    Please provide detailed, technical responses when appropriate.\n                    Current conversation:\n                    " ++
        (h ++ ("\n                    Human: " ++ (i ++ "\n                    Expert:"))) ∧
    get_custom_prompt (some "Creative") =
      Except.ok ⟨["history", "input"], creativeTemplate⟩ ∧
    formatTemplate creativeTemplate h i =
      "You are a creative and imaginative AI that thinks outside the box.\n                      Feel free to use metaphors and analogies in your responses.\n                      Current conversation:\n                      " ++
        (h ++ ("\n                      Human: " ++ (i ++ "\n                      Creative AI:"))) :=
  ⟨rfl, rfl, rfl, rfl, rfl, rfl⟩

/-- C7: every persona of the enumerated set resolves to a template that
contains both the history placeholder and the input placeholder. -/
theorem enumerated_personas_have_both_placeholders (p : String)
    (hp : p ∈ (["Default", "Expert", "Creative"] : List String)) :
    ∃ tpl : PromptTemplate, get_custom_prompt (some p) = Except.ok tpl ∧
      containsStr tpl.template "{history}" = true ∧
      containsStr tpl.template "{input}" = true := by
  simp only [List.mem_cons, List.not_mem_nil, or_false] at hp
  rcases hp with rfl | rfl | rfl
  · exact ⟨_, rfl, rfl, rfl⟩
  · exact ⟨_, rfl, rfl, rfl⟩
  · exact ⟨_, rfl, rfl, rfl⟩

/-- Witness for `enumerated_personas_have_both_placeholders` at the persona
Expert. -/
theorem enumerated_personas_have_both_placeholders_witness :
    ∃ tpl : PromptTemplate,
      get_custom_prompt (some "Expert") = Except.ok tpl ∧
      containsStr tpl.template "{history}" = true ∧
      containsStr tpl.template "{input}" = true :=
  enumerated_personas_have_both_placeholders "Expert" (by simp)

/-- C8: for persona Default with empty history and input `Hi`, the
assembled prompt contains the literal substring `Human: Hi` and ends with
the role marker `AI:`. -/
theorem default_hi_prompt_shape :
    containsStr (formatTemplate defaultTemplate "" "Hi") "Human: Hi" = true ∧
    strEndsWith (formatTemplate defaultTemplate "" "Hi") "AI:" = true :=
  ⟨rfl, rfl⟩

end ChatBot
